import Mathlib

/-
  Verification development for the takeHomeProject_Vivpro catalog service.

  The repository stores track metadata in a single `music_data` table and
  exposes lookup / search / rating operations through a DAO
  (`app/dao/song_dao.py`), a service layer (`app/service/song_service.py`)
  and a bulk-ingestion pipeline
  (`app/service/dataIngestionService/{normalizeData,insert_data}.py`).

  The table is modelled as a list of `Row` values; every SQL statement of
  `song_dao.py` is translated into a pure function on that list.  Python
  floats are modelled as rationals, and Python's banker's rounding
  (`round`) as `pyRound`.  Service functions return, besides their result,
  the list of DAO calls they issued, so that statements of the form
  "validation fails before any store call" are expressible.
-/

namespace Vivpro

/-! ### Python string helpers -/

/-- Python `str.strip()` on both ends, over the ASCII whitespace characters that
`Char.isWhitespace` recognises. -/
def pyStrip (s : String) : String :=
  String.mk (((s.toList.dropWhile Char.isWhitespace).reverse.dropWhile
    Char.isWhitespace).reverse)

/-- SQL `LOWER` / Python `str.lower()` restricted to ASCII letters. -/
def lowerStr (s : String) : String :=
  String.mk (s.toList.map Char.toLower)

/-! ### Python `round` (half-to-even) and `int` on rationals -/

/-- Round a rational to the nearest integer, ties going to the even
integer — the behaviour of Python's built-in `round`. -/
def roundHalfEven (q : ℚ) : ℤ :=
  let f : ℤ := ⌊q⌋
  if q - f < 1/2 then f
  else if 1/2 < q - f then f + 1
  else if f % 2 = 0 then f else f + 1

/-- Python `round(q, n)`. -/
def pyRound (q : ℚ) (n : ℕ) : ℚ :=
  (roundHalfEven (q * 10 ^ n) : ℚ) / 10 ^ n

/-- Python `int(q)`: truncation toward zero. -/
def pyInt (q : ℚ) : ℤ :=
  if 0 ≤ q then ⌊q⌋ else ⌈q⌉

/-! ### Data model: one `music_data` row -/

/-- One row of the `music_data` table (see `create_table` in
`insert_data.py`).  Timestamps are modelled as naturals; they are never
inspected by the verified operations. -/
structure Row where
  index_col : ℕ
  id : String
  title : String
  danceability : Option ℚ
  energy : Option ℚ
  mode : Option ℤ
  accousticness : Option ℚ
  tempo : Option ℚ
  duration_ms : Option ℤ
  num_sections : Option ℤ
  num_segments : Option ℤ
  star_rating : Option ℚ
  created_at : ℕ
  updated_at : ℕ
deriving DecidableEq

/-! ### SQL `LIKE` pattern matching

`get_songs_by_title_paginated` filters with
`LOWER(title) LIKE LOWER('%' + term + '%')`.  PostgreSQL `LIKE` treats
`%` as "any sequence of characters", `_` as "any single character", and
`\` — the default escape character — as "match the next pattern
character literally".  All three are honoured here.  A pattern that ends
with a dangling escape character is rejected by PostgreSQL with an
error; the patterns this DAO builds always end with `%` (a term-final
`\` escapes that closing `%` instead of dangling), so that case is
unreachable — the model returns `false` there. -/

/-- Predicate `likeMatch pat s` decides whether the `LIKE` pattern `pat` matches the
whole string `s`, with `%`/`_` wildcards and the `\` escape. -/
def likeMatch : List Char → List Char → Bool
  | [], s => s.isEmpty
  | p :: ps, s =>
    if p = '\\' then
      match ps, s with
      | [], _ => false
      | _ :: _, [] => false
      | e :: ps', c :: s' => (e = c) && likeMatch ps' s'
    else if p = '%' then s.tails.any (fun t => likeMatch ps t)
    else
      match s with
      | [] => false
      | c :: s' => (p = '_' || p = c) && likeMatch ps s'

/-- The pattern `'%' + term + '%'` built by the DAO, after `LOWER`. -/
def likePattern (term : String) : List Char :=
  '%' :: ((lowerStr term).toList ++ ['%'])

/-- Does a row's title satisfy `LOWER(title) LIKE LOWER('%term%')`? -/
def rowMatches (term : String) (r : Row) : Bool :=
  likeMatch (likePattern term) (lowerStr r.title).toList

/-! ### Case-insensitive substring containment (the spec's notion) -/

/-- Test `startsWithB p l` : is `p` an initial segment of `l`? -/
def startsWithB : List Char → List Char → Bool
  | [], _ => true
  | _ :: _, [] => false
  | a :: as, b :: bs => (a = b) && startsWithB as bs

/-- Test `containsB needle hay` : does `needle` occur contiguously in `hay`? -/
def containsB (needle hay : List Char) : Bool :=
  hay.tails.any (startsWithB needle)

/-- Modelled from the spec: "rows whose title contains the substring
case-insensitively". -/
def titleContains (term : String) (r : Row) : Bool :=
  containsB (lowerStr term).toList (lowerStr r.title).toList

/-! ### The `ORDER BY` key of the search query

`ORDER BY CASE WHEN LOWER(title) = LOWER(term) THEN 0 ELSE 1 END, title`.
String comparison is modelled as lexicographic order on code points. -/

/-- Tie-break rank: 0 for an exact case-insensitive match, 1 otherwise. -/
def searchRank (term : String) (r : Row) : ℕ :=
  if lowerStr r.title = lowerStr term then 0 else 1

/-- Lexicographic `≤` on character lists (by code point). -/
def lexLe : List Char → List Char → Bool
  | [], _ => true
  | _ :: _, [] => false
  | a :: as, b :: bs =>
    (a.toNat < b.toNat) || ((a.toNat = b.toNat) && lexLe as bs)

/-- Order on titles, as the model of the SQL collation. -/
def strLeB (a b : String) : Bool := lexLe a.toList b.toList

/-- The two-key order of the search query: rank first, then title. -/
def searchKeyLe (term : String) (a b : Row) : Bool :=
  (searchRank term a < searchRank term b) ||
    ((searchRank term a = searchRank term b) && strLeB a.title b.title)

/-! ### DAO layer (`song_dao.py`) -/

/-- Model of `check_song_exists`: `SELECT 1 FROM music_data WHERE title = %s LIMIT 1`.
Note the comparison is on the raw `title` column — unlike every other
lookup in the DAO, no `LOWER` is applied. -/
def check_song_exists (db : List Row) (title : String) : Bool :=
  db.any (fun r => r.title = title)

/-- Model of `get_song_by_title` (DAO): `WHERE LOWER(title) = LOWER(%s)`, `fetchone`. -/
def dao_get_song_by_title (db : List Row) (title : String) : Option Row :=
  db.find? (fun r => lowerStr r.title = lowerStr title)

/-- Model of `update_song_rating`: sets `star_rating` on every row whose title
matches case-insensitively and returns the `(id, title, star_rating)`
triple of the first such row (`RETURNING` + `fetchone`), together with the
updated table. -/
def update_song_rating (db : List Row) (title : String) (rating : ℚ) :
    Option (String × String × ℚ) × List Row :=
  let hit := fun r => lowerStr r.title = lowerStr title
  ((db.find? hit).map (fun r => (r.id, r.title, rating)),
   db.map (fun r => if hit r then { r with star_rating := some rating } else r))

/-- Model of `get_songs_paginated`: full catalog `ORDER BY title LIMIT-OFFSET`. -/
def get_songs_paginated (db : List Row) (limit offset : ℕ) : List Row :=
  (((List.insertionSort (fun a b => strLeB a.title b.title = true) db).drop
    offset).take limit)

/-- The ordered result set of the search query, before `LIMIT`/`OFFSET`. -/
def searchRows (db : List Row) (term : String) : List Row :=
  List.insertionSort (fun a b => searchKeyLe term a b = true)
    (db.filter (rowMatches term))

/-- Model of `get_songs_by_title_paginated`: `LIKE` filter, two-key `ORDER BY`,
then `LIMIT %s OFFSET %s`. -/
def get_songs_by_title_paginated (db : List Row) (title : String)
    (limit offset : ℕ) : List Row :=
  ((searchRows db title).drop offset).take limit

/-- Model of `get_songs_count_by_title`: `COUNT(*)` under the same `LIKE` filter. -/
def get_songs_count_by_title (db : List Row) (title : String) : ℕ :=
  (db.filter (rowMatches title)).length

/-! ### Service layer (`song_service.py`)

Each service function returns its outcome (`Except` for raised
`ValueError`s, `Option` for "not found") together with the list of DAO
calls it performed, in order. -/

/-- One call into the DAO layer. -/
inductive DaoCall where
  | checkExists (title : String)
  | getByTitle (title : String)
  | updateRating (title : String) (rating : ℚ)
  | listPage (limit offset : ℕ)
  | searchPage (title : String) (limit offset : ℕ)
  | countByTitle (title : String)
deriving DecidableEq

/-- The enriched record built by `_format_full_song_data`. -/
structure SongDict where
  index_col : ℕ
  id : String
  title : String
  danceability : Option ℚ
  energy : Option ℚ
  mode : Option ℤ
  accousticness : Option ℚ
  tempo : Option ℚ
  duration_ms : Option ℤ
  num_sections : Option ℤ
  num_segments : Option ℤ
  star_rating : Option ℚ
  created_at : ℕ
  updated_at : ℕ
  is_rated : Bool
  duration_minutes : Option ℚ
deriving DecidableEq

/-- Model of `_format_full_song_data`: adds `is_rated` and `duration_minutes`
(the latter is guarded by Python truthiness of `duration_ms`, so both
`None` and `0` yield `None`) and rounds the four float fields to three
decimals when they are not `None`. -/
def format_full_song_data (r : Row) : SongDict :=
  { index_col := r.index_col
    id := r.id
    title := r.title
    danceability := r.danceability.map (fun q => pyRound q 3)
    energy := r.energy.map (fun q => pyRound q 3)
    mode := r.mode
    accousticness := r.accousticness.map (fun q => pyRound q 3)
    tempo := r.tempo.map (fun q => pyRound q 3)
    duration_ms := r.duration_ms
    num_sections := r.num_sections
    num_segments := r.num_segments
    star_rating := r.star_rating
    created_at := r.created_at
    updated_at := r.updated_at
    is_rated := r.star_rating.isSome
    duration_minutes :=
      match r.duration_ms with
      | none => none
      | some d => if d = 0 then none else some (pyRound ((d : ℚ) / 60000) 2) }

/-- Model of `get_song_by_title` (service): validation, DAO lookup, formatting. -/
def service_get_song_by_title (db : List Row) (title : String) :
    Except String (Option SongDict) × List DaoCall :=
  if title = "" ∨ pyStrip title = "" then
    (.error "Song title cannot be empty", [])
  else if 255 < title.length then
    (.error "Song title too long (maximum 255 characters)", [])
  else if title.toList.contains (Char.ofNat 0) then
    (.error "Song title contains invalid characters", [])
  else
    let t := pyStrip title
    match dao_get_song_by_title db t with
    | none => (.ok none, [.getByTitle t])
    | some row => (.ok (some (format_full_song_data row)), [.getByTitle t])

/-- The projection built by `_format_paginated_song_data` (no rounding). -/
structure PagSong where
  id : String
  title : String
  star_rating : Option ℚ
  danceability : Option ℚ
  energy : Option ℚ
  mode : Option ℤ
  accousticness : Option ℚ
  tempo : Option ℚ
  duration_ms : Option ℤ
  is_rated : Bool
deriving DecidableEq

/-- Model of `_format_paginated_song_data`. -/
def format_paginated_song_data (r : Row) : PagSong :=
  { id := r.id, title := r.title, star_rating := r.star_rating
    danceability := r.danceability, energy := r.energy, mode := r.mode
    accousticness := r.accousticness, tempo := r.tempo
    duration_ms := r.duration_ms, is_rated := r.star_rating.isSome }

/-- The `pagination` metadata dictionary. -/
structure Pagination where
  current_page : ℕ
  per_page : ℕ
  total_results : ℕ
  total_pages : ℕ
  has_next : Bool
  has_prev : Bool
  next_page : Option ℕ
  prev_page : Option ℕ
deriving DecidableEq

/-- The dictionary returned by `get_song_by_title_paginated`. -/
structure PagResult where
  songs : List PagSong
  search_term : String
  pagination : Pagination
deriving DecidableEq

/-- Model of `get_song_by_title_paginated` (service).  Note the paginated path
validates emptiness and length but — unlike `get_song_by_title` — has no
null-byte check.  Page and limit are the non-negative integers the HTTP
layer hands over. -/
def service_get_song_by_title_paginated (db : List Row) (title : String)
    (page limit : ℕ) : Except String (Option PagResult) × List DaoCall :=
  if title = "" ∨ pyStrip title = "" then
    (.error "Song title cannot be empty", [])
  else if 255 < title.length then
    (.error "Song title too long (maximum 255 characters)", [])
  else if page < 1 then
    (.error "Page number must be >= 1", [])
  else if limit < 1 ∨ 100 < limit then
    (.error "Limit must be between 1 and 100", [])
  else
    let t := pyStrip title
    let offset := (page - 1) * limit
    let rows := get_songs_by_title_paginated db t limit offset
    let total := get_songs_count_by_title db t
    let trace : List DaoCall := [.searchPage t limit offset, .countByTitle t]
    if rows = [] then (.ok none, trace)
    else
      let total_pages := (total + limit - 1) / limit
      let has_next := decide (page < total_pages)
      let has_prev := decide (1 < page)
      (.ok (some
        { songs := rows.map format_paginated_song_data
          search_term := t
          pagination :=
            { current_page := page, per_page := limit, total_results := total
              total_pages := total_pages, has_next := has_next
              has_prev := has_prev
              next_page := if has_next then some (page + 1) else none
              prev_page := if has_prev then some (page - 1) else none } }),
       trace)

/-- The `rating` argument of `rate_song` as it arrives from JSON: either
a number or some non-numeric value (`isinstance(rating, (int, float))`
fails on the latter). -/
inductive PyRating where
  | num (q : ℚ)
  | nonNum
deriving DecidableEq

/-- The dictionary returned by `rate_song` on success (the human-readable
`message` field is not modelled). -/
structure RateResult where
  id : String
  title : String
  rating : ℚ
deriving DecidableEq

/-- Model of `rate_song` (service): validates the title for emptiness only, the
rating for numeric type and the inclusive `[0,5]` range, rounds to one
decimal, then checks existence and updates.  Returns the outcome, the
table after the call, and the DAO-call trace. -/
def service_rate_song (db : List Row) (title : String) (rating : PyRating) :
    Except String (Option RateResult) × List Row × List DaoCall :=
  if title = "" ∨ pyStrip title = "" then
    (.error "Song title cannot be empty", db, [])
  else
    match rating with
    | .nonNum => (.error "Rating must be a number", db, [])
    | .num q =>
      if ¬(0 ≤ q ∧ q ≤ 5) then
        (.error "Rating must be between 0 and 5", db, [])
      else
        let t := pyStrip title
        let rr := pyRound q 1
        if check_song_exists db t = false then
          (.ok none, db, [.checkExists t])
        else
          match update_song_rating db t rr with
          | (none, db') => (.ok none, db', [.checkExists t, .updateRating t rr])
          | (some u, db') =>
            (.ok (some { id := u.1, title := u.2.1, rating := u.2.2 }), db',
             [.checkExists t, .updateRating t rr])

/-- The abbreviated row shape built inside `get_all_songs`; `danceability`
and `energy` pass through Python truthiness (`if row[i]`), so a stored
`0.0` comes out as `None`. -/
structure ListSong where
  title : String
  id : String
  rating : Option ℚ
  danceability : Option ℚ
  energy : Option ℚ
  mode : Option ℤ
  is_rated : Bool
deriving DecidableEq

/-- The per-row shaping inside `get_all_songs`. -/
def shape_all_song_row (r : Row) : ListSong :=
  { title := r.title, id := r.id, rating := r.star_rating
    danceability :=
      match r.danceability with
      | none => none
      | some q => if q = 0 then none else some (pyRound q 3)
    energy :=
      match r.energy with
      | none => none
      | some q => if q = 0 then none else some (pyRound q 3)
    mode := r.mode
    is_rated := r.star_rating.isSome }

/-- Pagination block of `get_all_songs`. -/
structure ListPagination where
  page : ℕ
  limit : ℕ
  count : ℕ
  has_more : Bool
deriving DecidableEq

/-- Result dictionary of `get_all_songs`. -/
structure ListResult where
  songs : List ListSong
  pagination : ListPagination
deriving DecidableEq

/-- Model of `get_all_songs` (service). -/
def service_get_all_songs (db : List Row) (page limit : ℕ) :
    Except String ListResult × List DaoCall :=
  if page < 1 then (.error "Page number must be 1 or greater", [])
  else if limit < 1 ∨ 100 < limit then
    (.error "Limit must be between 1 and 100", [])
  else
    let offset := (page - 1) * limit
    let rows := get_songs_paginated db limit offset
    let songs := rows.map shape_all_song_row
    (.ok { songs := songs
           pagination :=
             { page := page, limit := limit, count := songs.length
               has_more := decide (songs.length = limit) } },
     [.listPage limit offset])

/-! ### Ingestion: normalisation (`normalizeData.py`, `fileData.py`)

`normalize_json_to_filedata` loads the raw records into a pandas
`DataFrame` and reads each required column off each row.  The DataFrame's
column set is the union of the keys of all records; a key absent from
*every* record raises `KeyError` at the first row access, while a key that
only *some* records lack is silently filled with `NaN` in the rows that
lack it.  `str(NaN)` and `float(NaN)` succeed; `int(NaN)` raises
`ValueError`.  Record values are modelled as rationals (the ingested JSON
carries numerals; the claims below concern key presence only). -/

/-- A DataFrame cell after field extraction: a number or pandas `NaN`. -/
inductive Cell where
  | num (q : ℚ)
  | nan
deriving DecidableEq

/-- A raw JSON record: the association list of keys it actually carries. -/
abbrev RawRecord := List (String × ℚ)

/-- The error raised while normalising: a missing column (`KeyError`,
the spec's `MissingFieldError`) or a failed conversion (`ValueError`). -/
inductive NormError where
  | keyError (key : String)
  | valueError
deriving DecidableEq

/-- Does the DataFrame built from `batch` have column `k`? -/
def columnExists (batch : List RawRecord) (k : String) : Bool :=
  batch.any (fun rec => rec.any (fun p => p.1 = k))

/-- Access `row[k]` on the DataFrame: `KeyError` if no record carries `k`, the
record's own value if present, `NaN` otherwise. -/
def dfCell (batch : List RawRecord) (r : RawRecord) (k : String) :
    Except NormError Cell :=
  if columnExists batch k then
    match r.lookup k with
    | some v => .ok (.num v)
    | none => .ok .nan
  else .error (.keyError k)

/-- Conversion `int(cell)`: truncates a number, raises `ValueError` on `NaN`. -/
def toIntCell : Cell → Except NormError ℤ
  | .num q => .ok (pyInt q)
  | .nan => .error .valueError

/-- The `FileData` dataclass.  `id`/`title` hold the result of `str(...)`
and the float features the result of `float(...)` — both keep `NaN`
unchanged, so those fields stay `Cell`s; the `int(...)` fields are
integers.  `star_rating` is never set during ingestion. -/
structure FileData where
  id : Cell
  title : Cell
  danceability : Cell
  energy : Cell
  mode : ℤ
  accousticness : Cell
  tempo : Cell
  duration_ms : ℤ
  num_sections : ℤ
  num_segments : ℤ
  star_rating : Option ℚ := none
deriving DecidableEq

/-- The required input keys, in the order the constructor call of
`normalize_json_to_filedata` reads them.  The wire key is `acousticness`
(one `c`) although the dataclass attribute is `accousticness`. -/
def requiredKeys : List String :=
  ["id", "title", "danceability", "energy", "mode", "acousticness",
   "tempo", "duration_ms", "num_sections", "num_segments"]

/-- Normalise one DataFrame row into a `FileData`. -/
def normalizeRow (batch : List RawRecord) (r : RawRecord) :
    Except NormError FileData := do
  let idv ← dfCell batch r "id"
  let titlev ← dfCell batch r "title"
  let dancev ← dfCell batch r "danceability"
  let energyv ← dfCell batch r "energy"
  let modev ← dfCell batch r "mode" >>= toIntCell
  let acousticv ← dfCell batch r "acousticness"
  let tempov ← dfCell batch r "tempo"
  let durationv ← dfCell batch r "duration_ms" >>= toIntCell
  let sectionsv ← dfCell batch r "num_sections" >>= toIntCell
  let segmentsv ← dfCell batch r "num_segments" >>= toIntCell
  pure { id := idv, title := titlev, danceability := dancev
         energy := energyv, mode := modev, accousticness := acousticv
         tempo := tempov, duration_ms := durationv
         num_sections := sectionsv, num_segments := segmentsv }

/-- Model of `normalize_json_to_filedata`: rows in order, first error aborts the
whole batch with no partial output. -/
def normalize_json_to_filedata (batch : List RawRecord) :
    Except NormError (List FileData) :=
  batch.mapM (normalizeRow batch)

/-! ### Ingestion: bulk insert (`insert_data.py`)

Both `insert_file_data` (per-row `execute`) and `insert_batch_data`
(`executemany`) run
`INSERT ... ON CONFLICT (id) DO NOTHING` per entity, in order. -/

/-- One `INSERT ... ON CONFLICT (id) DO NOTHING`: appends a fresh row
unless the id is already present, in which case the store is untouched. -/
def insertOne (db : List FileData) (e : FileData) : List FileData :=
  if db.any (fun r => r.id = e.id) then db else db ++ [e]

/-- Model of `insert_file_data`: a loop of single inserts. -/
def insert_file_data (db : List FileData) (es : List FileData) :
    List FileData :=
  es.foldl insertOne db

/-- Model of `insert_batch_data`: `executemany` over the same statement — the same
per-tuple conflict-skipping semantics, in order. -/
def insert_batch_data (db : List FileData) (es : List FileData) :
    List FileData :=
  es.foldl insertOne db

/-! ### Sample data used by witnesses and counterexamples -/

/-- A bare row with the given index, id and title and every optional
column `NULL`. -/
def mkRow (i : ℕ) (idv titlev : String) : Row :=
  { index_col := i, id := idv, title := titlev, danceability := none,
    energy := none, mode := none, accousticness := none, tempo := none,
    duration_ms := none, num_sections := none, num_segments := none,
    star_rating := none, created_at := 0, updated_at := 0 }

def loveRow : Row := mkRow 1 "id-love" "Love"

def iLoveYouRow : Row := mkRow 2 "id-ily" "I Love You"

def rowA : Row := mkRow 3 "id-a" "A"

def rowAB : Row := mkRow 5 "id-ab" "ab"

/-- A 256-character title (over the 255-character limit). -/
def longTitle : String := String.mk (List.replicate 256 'a')

end Vivpro

deriving instance DecidableEq for Except

namespace Vivpro

/-! ### Helper lemmas -/

lemma pyRound_zero (n : ℕ) : pyRound 0 n = 0 := by
  simp [pyRound, roundHalfEven]

/-! ### C5 — `check_song_exists` -/

/-- C5 counterexample: with a track titled `"Love"` in the store,
`Exists("love")` is `false` — `check_song_exists` compares the raw
`title` column without `LOWER`, so it is case-sensitive, refuting the
claim that it is a case-insensitive existence probe. -/
theorem exists_lookup_case_cex :
    loveRow.title = "Love" ∧ check_song_exists [loveRow] "love" = false := by
  decide

/-- C5 amended: `check_song_exists` is a case-sensitive exact-match
probe — it returns `true` exactly when some stored row's title equals the
queried title character for character. -/
theorem exists_lookup_case_sensitive (db : List Row) (title : String) :
    check_song_exists db title = true ↔ ∃ r ∈ db, r.title = title := by
  simp [check_song_exists]

/-! ### C10 — `get_all_songs` vs `_format_full_song_data` on a `0.0` feature -/

/-- C10: `get_all_songs` shapes a stored `danceability`/`energy` of
exactly `0.0` into `None` (presence is tested by Python truthiness),
while `_format_full_song_data` preserves it as `0.0`; the two operations
shape the same stored row differently at this edge case. -/
theorem listall_zero_feature_vs_getbytitle (r : Row) :
    (shape_all_song_row { r with danceability := some 0 }).danceability = none
    ∧ (shape_all_song_row { r with energy := some 0 }).energy = none
    ∧ (format_full_song_data { r with danceability := some 0 }).danceability
        = some 0
    ∧ (format_full_song_data { r with energy := some 0 }).energy = some 0
    ∧ (shape_all_song_row { r with danceability := some 0 }).danceability
        ≠ (format_full_song_data { r with danceability := some 0 }).danceability := by
  refine ⟨rfl, rfl, ?_, ?_, ?_⟩ <;>
    simp [shape_all_song_row, format_full_song_data, pyRound_zero]

/-! ### C9 — empty page returns an absent result -/

/-- C9: for every valid title, page and limit, if the store returns an
empty row set for the requested page, `get_song_by_title_paginated`
returns `ok none` — an absent result, not an error — regardless of the
total match count. -/
theorem search_paginated_empty_page_absent (db : List Row) (title : String)
    (page limit : ℕ) (h1 : ¬(title = "" ∨ pyStrip title = ""))
    (h2 : title.length ≤ 255) (h3 : 1 ≤ page) (h4 : 1 ≤ limit ∧ limit ≤ 100)
    (hempty : get_songs_by_title_paginated db (pyStrip title) limit
      ((page - 1) * limit) = []) :
    (service_get_song_by_title_paginated db title page limit).1 = .ok none := by
  rw [service_get_song_by_title_paginated]
  rw [if_neg h1, if_neg (by omega), if_neg (by omega), if_neg (by omega)]
  simp only [hempty]
  simp

/-- C9 witness: one track `"Love"`; page 2 at limit 10 is empty while the
total count is 1, and the service returns an absent result. -/
theorem search_paginated_empty_page_absent_witness :
    get_songs_count_by_title [loveRow] "Love" = 1
    ∧ (service_get_song_by_title_paginated [loveRow] "Love" 2 10).1 = .ok none :=
  ⟨by decide,
   search_paginated_empty_page_absent [loveRow] "Love" 2 10 (by decide)
     (by decide) (by decide) (by decide) (by decide)⟩

/-! ### C7 — `rate_song` title validation -/

/-- C7 counterexample: a 256-character title with a valid rating does not
raise `ValueError` in `rate_song` — it sails through to the store
(`check_song_exists` is called) and comes back as a normal "not found"
result.  `rate_song` performs only the emptiness check, not the
255-character or null-byte checks of `get_song_by_title`. -/
theorem rate_song_overlong_title_cex :
    255 < longTitle.length
    ∧ (service_rate_song [] longTitle (.num 3)).1 = .ok none
    ∧ (service_rate_song [] longTitle (.num 3)).2.2 = [.checkExists longTitle] := by
  set_option maxRecDepth 40000 in decide

/-- C7 amended: `rate_song` raises `ValueError` exactly for a title that
is empty (or whitespace-only), a non-numeric rating, or a rating outside
`[0,5]` — over-long titles and null bytes are not rejected; and every
call either fails with an empty DAO trace (validation happens before any
store call) or returns a normal result. -/
theorem rate_song_validation_characterization (db : List Row)
    (title : String) (r : PyRating) :
    ((∃ e, (service_rate_song db title r).1 = .error e) ↔
      (title = "" ∨ pyStrip title = "" ∨ r = .nonNum
        ∨ ∃ q, r = .num q ∧ (q < 0 ∨ 5 < q)))
    ∧ ((∃ e, (service_rate_song db title r).1 = .error e
          ∧ (service_rate_song db title r).2.2 = [])
        ∨ ∃ v, (service_rate_song db title r).1 = .ok v) := by
  rw [service_rate_song.eq_def]
  by_cases h1 : title = "" ∨ pyStrip title = ""
  · rw [if_pos h1]
    exact ⟨by simpa using Or.imp id Or.inl h1, Or.inl ⟨_, rfl, rfl⟩⟩
  · rw [if_neg h1]
    cases r with
    | nonNum =>
      refine ⟨?_, Or.inl ⟨_, rfl, rfl⟩⟩
      simp
    | num q =>
      dsimp only
      by_cases h2 : ¬(0 ≤ q ∧ q ≤ 5)
      · rw [if_pos h2]
        refine ⟨⟨?_, fun _ => ⟨_, rfl⟩⟩, Or.inl ⟨_, rfl, rfl⟩⟩
        intro _
        refine Or.inr (Or.inr (Or.inr ⟨q, rfl, ?_⟩))
        by_cases hq : 0 ≤ q
        · exact Or.inr (by push_neg at h2; exact h2 hq)
        · exact Or.inl (not_le.mp hq)
      · rw [if_neg h2]
        push_neg at h1
        rw [not_not] at h2
        by_cases h3 : check_song_exists db (pyStrip title) = false
        · rw [if_pos h3]
          refine ⟨?_, Or.inr ⟨_, rfl⟩⟩
          simp
          exact ⟨h1.1, h1.2, h2.1, h2.2⟩
        · rw [if_neg h3]
          rcases hu : update_song_rating db (pyStrip title) (pyRound q 1)
            with ⟨fst, db'⟩
          cases fst <;> simp [hu] <;>
            exact ⟨h1.1, h1.2, h2.1, h2.2⟩

/-! ### C3 — idempotent bulk upsert -/

lemma insert_file_data_nil (db : List FileData) :
    insert_file_data db [] = db := rfl

lemma insert_file_data_cons (db : List FileData) (a : FileData)
    (as : List FileData) :
    insert_file_data db (a :: as) = insert_file_data (insertOne db a) as := rfl

lemma insertOne_hasId (db : List FileData) (e : FileData) (i : Cell)
    (h : db.any (fun r => r.id = i) = true) :
    (insertOne db e).any (fun r => r.id = i) = true := by
  unfold insertOne
  split
  · exact h
  · simp only [List.any_append, h, Bool.true_or]

lemma insertOne_hasId_self (db : List FileData) (e : FileData) :
    (insertOne db e).any (fun r => r.id = e.id) = true := by
  unfold insertOne
  split
  · assumption
  · simp [List.any_append]

lemma insert_file_data_hasId (es db : List FileData) (i : Cell)
    (h : db.any (fun r => r.id = i) = true) :
    (insert_file_data db es).any (fun r => r.id = i) = true := by
  induction es generalizing db with
  | nil => exact h
  | cons a as ih =>
    rw [insert_file_data_cons]
    exact ih _ (insertOne_hasId _ _ _ h)

lemma insert_file_data_mem_hasId (es db : List FileData) (e : FileData)
    (he : e ∈ es) :
    (insert_file_data db es).any (fun r => r.id = e.id) = true := by
  induction es generalizing db with
  | nil => cases he
  | cons a as ih =>
    rw [insert_file_data_cons]
    rcases List.mem_cons.mp he with rfl | hmem
    · exact insert_file_data_hasId _ _ _ (insertOne_hasId_self _ _)
    · exact ih _ hmem

lemma insert_file_data_noop (es db : List FileData)
    (h : ∀ e ∈ es, db.any (fun r => r.id = e.id) = true) :
    insert_file_data db es = db := by
  induction es with
  | nil => rfl
  | cons a as ih =>
    rw [insert_file_data_cons]
    have ha : insertOne db a = db := by
      unfold insertOne
      rw [if_pos (h a (List.mem_cons_self a as))]
    rw [ha]
    exact ih fun e he => h e (List.mem_cons_of_mem a he)

lemma insert_file_data_as_append (es db : List FileData) :
    ∃ tail, insert_file_data db es = db ++ tail := by
  induction es generalizing db with
  | nil => exact ⟨[], by simp [insert_file_data_nil]⟩
  | cons a as ih =>
    rw [insert_file_data_cons]
    by_cases hc : db.any (fun r => r.id = a.id) = true
    · have hskip : insertOne db a = db := by
        unfold insertOne
        rw [if_pos hc]
      rw [hskip]
      exact ih db
    · have happ : insertOne db a = db ++ [a] := by
        unfold insertOne
        rw [if_neg hc]
      rw [happ]
      obtain ⟨t, ht⟩ := ih (db ++ [a])
      exact ⟨[a] ++ t, by rw [ht, List.append_assoc]⟩

/-- C3: the bulk insert is idempotent — running `insert_file_data` (or
`insert_batch_data`, which executes the same per-tuple statement) twice
with the same entity list leaves the store exactly as one run does; a run
only ever appends rows after the existing ones (no overwrite, no
deletion); both entry points produce the same store; and a single insert
whose id is already present leaves the store untouched. -/
theorem bulk_upsert_idempotent (db es : List FileData) :
    insert_file_data (insert_file_data db es) es = insert_file_data db es
    ∧ insert_batch_data (insert_batch_data db es) es = insert_batch_data db es
    ∧ (∃ tail, insert_file_data db es = db ++ tail)
    ∧ insert_file_data db es = insert_batch_data db es
    ∧ ∀ e : FileData, db.any (fun r => r.id = e.id) = true →
        insertOne db e = db := by
  have hid : insert_file_data (insert_file_data db es) es
      = insert_file_data db es :=
    insert_file_data_noop _ _ fun e he => insert_file_data_mem_hasId _ _ _ he
  exact ⟨hid, hid, insert_file_data_as_append es db, rfl,
    fun e h => by unfold insertOne; rw [if_pos h]⟩

/-- A sample entity for the C3 witness. -/
def fdA : FileData :=
  { id := .num 1, title := .num 2, danceability := .num 3, energy := .num 4,
    mode := 1, accousticness := .num 5, tempo := .num 6, duration_ms := 200000,
    num_sections := 5, num_segments := 50 }

/-- C3 witness: the hypothesis of the final conjunct holds for `fdA`
against a store already containing it, and the insert is then a no-op. -/
theorem bulk_upsert_idempotent_witness :
    ([fdA].any (fun r => r.id = fdA.id) = true) ∧ insertOne [fdA] fdA = [fdA] :=
  ⟨by decide, (bulk_upsert_idempotent [fdA] [fdA]).2.2.2.2 fdA (by decide)⟩

/-! ### C8 — enrichment performed by `GetByTitle` -/

lemma pyRound_duration_example :
    pyRound ((200000 : ℚ) / 60000) 2 = 333 / 100 := by
  have hq : ((200000 : ℚ) / 60000) * 10 ^ 2 = 1000 / 3 := by norm_num
  have hf : ⌊(1000 / 3 : ℚ)⌋ = 333 := by
    rw [Int.floor_eq_iff]
    norm_num
  simp only [pyRound, roundHalfEven]
  rw [hq, hf]
  norm_num

/-- An unrated track with `duration_ms = 200000`, as in the spec's
ingestion scenario. -/
def songX : Row :=
  { mkRow 4 "a" "X" with
    danceability := some 1, energy := some 1,
    mode := some 1, accousticness := some 1, tempo := some 120,
    duration_ms := some 200000, num_sections := some 5,
    num_segments := some 50 }

/-- C8: `_format_full_song_data` sets `is_rated` iff `star_rating` is
non-null, maps `duration_ms` to `duration_ms / 60000` rounded to two
decimals when present and non-zero and to `None` when null or zero
(`200000` yields `3.33`), rounds each float feature to three decimals
when present, and every record `get_song_by_title` returns is exactly
the formatted row the DAO found. -/
theorem getbytitle_enrichment (r : Row) :
    ((format_full_song_data r).is_rated = true ↔ r.star_rating ≠ none)
    ∧ (r.star_rating = none → (format_full_song_data r).is_rated = false)
    ∧ (r.duration_ms = none → (format_full_song_data r).duration_minutes = none)
    ∧ (r.duration_ms = some 0 → (format_full_song_data r).duration_minutes = none)
    ∧ (∀ d : ℤ, r.duration_ms = some d → d ≠ 0 →
        (format_full_song_data r).duration_minutes
          = some (pyRound ((d : ℚ) / 60000) 2))
    ∧ (∀ q, r.danceability = some q →
        (format_full_song_data r).danceability = some (pyRound q 3))
    ∧ (∀ q, r.energy = some q →
        (format_full_song_data r).energy = some (pyRound q 3))
    ∧ (∀ q, r.accousticness = some q →
        (format_full_song_data r).accousticness = some (pyRound q 3))
    ∧ (∀ q, r.tempo = some q →
        (format_full_song_data r).tempo = some (pyRound q 3))
    ∧ (r.duration_ms = some 200000 →
        (format_full_song_data r).duration_minutes = some (333 / 100))
    ∧ ∀ (db : List Row) (title : String) (res : SongDict),
        (service_get_song_by_title db title).1 = .ok (some res) →
        ∃ row, dao_get_song_by_title db (pyStrip title) = some row
          ∧ res = format_full_song_data row := by
  refine ⟨by simp [format_full_song_data, Option.isSome_iff_ne_none],
    fun h => by simp [format_full_song_data, h],
    fun h => by simp [format_full_song_data, h],
    fun h => by simp [format_full_song_data, h],
    fun d hd hd0 => by simp [format_full_song_data, hd, hd0],
    fun q hq => by simp [format_full_song_data, hq],
    fun q hq => by simp [format_full_song_data, hq],
    fun q hq => by simp [format_full_song_data, hq],
    fun q hq => by simp [format_full_song_data, hq],
    fun h => by simp [format_full_song_data, h, pyRound_duration_example],
    ?_⟩
  intro db title res h
  rw [service_get_song_by_title.eq_def] at h
  by_cases h1 : title = "" ∨ pyStrip title = ""
  · rw [if_pos h1] at h
    exact absurd h (by simp)
  · rw [if_neg h1] at h
    by_cases h2 : 255 < title.length
    · rw [if_pos h2] at h
      exact absurd h (by simp)
    · rw [if_neg h2] at h
      by_cases h3 : title.toList.contains (Char.ofNat 0) = true
      · rw [if_pos h3] at h
        exact absurd h (by simp)
      · rw [if_neg h3] at h
        dsimp only at h
        rcases hd : dao_get_song_by_title db (pyStrip title) with _ | row
        · rw [hd] at h
          exact absurd h (by simp)
        · rw [hd] at h
          simp only [Prod.fst, Except.ok.injEq, Option.some.injEq] at h
          exact ⟨row, rfl, h.symm⟩

/-- C8 witness: the spec's scenario row — unrated, `duration_ms =
200000` — comes out with `is_rated = false` and `duration_minutes =
3.33`. -/
theorem getbytitle_enrichment_witness :
    songX.star_rating = none ∧ songX.duration_ms = some 200000
    ∧ (format_full_song_data songX).is_rated = false
    ∧ (format_full_song_data songX).duration_minutes = some (333 / 100) :=
  ⟨rfl, rfl, (getbytitle_enrichment songX).2.1 rfl,
    (getbytitle_enrichment songX).2.2.2.2.2.2.2.2.2.1 rfl⟩

/-! ### C4 — `rate_song` rating bounds -/

lemma pyRound_five : pyRound 5 1 = 5 := by
  have hq : ((5 : ℚ)) * 10 ^ 1 = 50 := by norm_num
  have hf : ⌊(50 : ℚ)⌋ = 50 := by
    rw [Int.floor_eq_iff]
    norm_num
  simp only [pyRound, roundHalfEven]
  rw [hq, hf]
  norm_num

/-- After `update_song_rating`, every row whose title matches the target
case-insensitively carries the new rating. -/
lemma update_song_rating_stored (db : List Row) (t : String) (rr : ℚ) :
    ∀ r ∈ (update_song_rating db t rr).2,
      lowerStr r.title = lowerStr t → r.star_rating = some rr := by
  intro r hr hmatch
  simp only [update_song_rating, List.mem_map] at hr
  obtain ⟨r', _, rfl⟩ := hr
  by_cases hc : lowerStr r'.title = lowerStr t
  · simp [hc]
  · rw [if_neg (by simpa using hc)] at hmatch ⊢
    exact absurd hmatch hc

/-- The success path of `rate_song`: with a valid title, an in-range
rating and a positive existence check, it updates and reports the first
case-insensitively matching row with the rounded rating. -/
lemma rate_song_success_path (db : List Row) (title : String) (q : ℚ)
    (ht : ¬(title = "" ∨ pyStrip title = ""))
    (hq : 0 ≤ q ∧ q ≤ 5)
    (hex : check_song_exists db (pyStrip title) = true) :
    (∃ res, (service_rate_song db title (.num q)).1 = .ok (some res)
      ∧ res.rating = pyRound q 1)
    ∧ (service_rate_song db title (.num q)).2.1
        = (update_song_rating db (pyStrip title) (pyRound q 1)).2 := by
  have hfind : ∃ r0, db.find?
      (fun r => lowerStr r.title = lowerStr (pyStrip title)) = some r0 := by
    rw [check_song_exists, List.any_eq_true] at hex
    obtain ⟨r0, hr0, hr0t⟩ := hex
    rw [← Option.isSome_iff_exists, List.find?_isSome]
    exact ⟨r0, hr0, by simp at hr0t; simp [hr0t]⟩
  obtain ⟨r0, hr0⟩ := hfind
  rw [service_rate_song.eq_def, if_neg ht]
  dsimp only
  rw [if_neg (not_not.mpr hq), if_neg (by simp [hex])]
  simp only [update_song_rating, hr0, Option.map_some']
  exact ⟨⟨_, rfl, rfl⟩, trivial⟩

/-- C4: with a valid title of an existing song, `rate_song` succeeds at
both inclusive bounds 0 and 5; the value stored on every matching row is
the rating rounded to one decimal; any numeric rating outside `[0,5]`
fails with `ValueError` before any store call and leaves the store
untouched; and a non-numeric rating likewise fails up front. -/
theorem rate_song_rating_bounds (db : List Row) (title : String)
    (ht : ¬(title = "" ∨ pyStrip title = ""))
    (hex : check_song_exists db (pyStrip title) = true) :
    (∃ res, (service_rate_song db title (.num 0)).1 = .ok (some res)
      ∧ res.rating = 0)
    ∧ (∃ res, (service_rate_song db title (.num 5)).1 = .ok (some res)
      ∧ res.rating = 5)
    ∧ (∀ q : ℚ, 0 ≤ q → q ≤ 5 →
        ∀ r ∈ (service_rate_song db title (.num q)).2.1,
          lowerStr r.title = lowerStr (pyStrip title) →
          r.star_rating = some (pyRound q 1))
    ∧ (∀ q : ℚ, q < 0 ∨ 5 < q →
        (service_rate_song db title (.num q)).1
            = .error "Rating must be between 0 and 5"
          ∧ (service_rate_song db title (.num q)).2.2 = []
          ∧ (service_rate_song db title (.num q)).2.1 = db)
    ∧ ((service_rate_song db title .nonNum).1 = .error "Rating must be a number"
        ∧ (service_rate_song db title .nonNum).2.2 = []
        ∧ (service_rate_song db title .nonNum).2.1 = db) := by
  refine ⟨?_, ?_, ?_, ?_, ?_⟩
  · obtain ⟨⟨res, h1, h2⟩, -⟩ :=
      rate_song_success_path db title 0 ht (by norm_num) hex
    exact ⟨res, h1, by rw [h2, pyRound_zero]⟩
  · obtain ⟨⟨res, h1, h2⟩, -⟩ :=
      rate_song_success_path db title 5 ht (by norm_num) hex
    exact ⟨res, h1, by rw [h2, pyRound_five]⟩
  · intro q hq0 hq5 r hr hmatch
    obtain ⟨-, hdb⟩ := rate_song_success_path db title q ht ⟨hq0, hq5⟩ hex
    rw [hdb] at hr
    exact update_song_rating_stored db (pyStrip title) (pyRound q 1) r hr hmatch
  · intro q hrange
    rw [service_rate_song.eq_def, if_neg ht]
    dsimp only
    rw [if_pos (by rcases hrange with h | h <;> intro hc <;> [linarith [hc.1]; linarith [hc.2]])]
    exact ⟨rfl, rfl, rfl⟩
  · rw [service_rate_song.eq_def, if_neg ht]
    exact ⟨rfl, rfl, rfl⟩

/-- C4 witness: concrete single-track store; rating 0 succeeds, 5.1 and
-0.1 fail with `ValueError` and an empty DAO trace, a non-numeric rating
fails as well. -/
theorem rate_song_rating_bounds_witness :
    (¬("Love" = "" ∨ pyStrip "Love" = ""))
    ∧ check_song_exists [loveRow] (pyStrip "Love") = true
    ∧ (∃ res, (service_rate_song [loveRow] "Love" (.num 0)).1 = .ok (some res)
        ∧ res.rating = 0)
    ∧ (service_rate_song [loveRow] "Love" (.num (51/10))).1
        = .error "Rating must be between 0 and 5"
    ∧ (service_rate_song [loveRow] "Love" (.num (-1/10))).2.2 = []
    ∧ (service_rate_song [loveRow] "Love" .nonNum).1
        = .error "Rating must be a number" := by
  have h := rate_song_rating_bounds [loveRow] "Love" (by decide) (by decide)
  exact ⟨by decide, by decide, h.1,
    (h.2.2.2.1 (51/10) (Or.inr (by norm_num))).1,
    (h.2.2.2.1 (-1/10) (Or.inl (by norm_num))).2.1,
    h.2.2.2.2.1⟩

/-! ### C2 — pagination metadata of the title search -/

/-- Natural division `(a + b - 1) / b` is the ceiling of `a / b`. -/
lemma nat_ceil_div (a b : ℕ) (hb : 0 < b) :
    (((a + b - 1) / b : ℕ) : ℤ) = ⌈(a : ℚ) / (b : ℚ)⌉ := by
  have hd := Nat.div_add_mod (a + b - 1) b
  have hmlt := Nat.mod_lt (a + b - 1) hb
  set n := (a + b - 1) / b with hn
  set m := (a + b - 1) % b with hm
  set p := b * n with hp
  have hA : a ≤ p := by omega
  have hB : p < a + b := by omega
  rw [hp, Nat.mul_comm b n] at hA hB
  have hb' : (0 : ℚ) < (b : ℚ) := by exact_mod_cast hb
  have hA' : (a : ℚ) ≤ (n : ℚ) * b := by exact_mod_cast hA
  have hB' : (n : ℚ) * b < a + b := by exact_mod_cast hB
  rw [eq_comm, Int.ceil_eq_iff]
  constructor
  · rw [lt_div_iff₀ hb']
    push_cast
    linarith
  · rw [div_le_iff₀ hb']
    push_cast
    linarith

/-- C2: for every valid title, `page ≥ 1` and `1 ≤ limit ≤ 100`, the
paginated search queries the store exactly once for the page — at offset
`(page-1) * limit` — and once for the count; when it returns a result,
`total_pages = ceil(total_count / limit)`, `has_next = (page <
total_pages)` and `has_prev = (page > 1)`. -/
theorem search_pagination_metadata (db : List Row) (title : String)
    (page limit : ℕ)
    (ht : ¬(title = "" ∨ pyStrip title = "")) (htl : title.length ≤ 255)
    (hp : 1 ≤ page) (hl : 1 ≤ limit ∧ limit ≤ 100) :
    (service_get_song_by_title_paginated db title page limit).2
      = [.searchPage (pyStrip title) limit ((page - 1) * limit),
         .countByTitle (pyStrip title)]
    ∧ ∀ res, (service_get_song_by_title_paginated db title page limit).1
        = .ok (some res) →
        ((res.pagination.total_pages : ℤ)
            = ⌈(get_songs_count_by_title db (pyStrip title) : ℚ) / (limit : ℚ)⌉
          ∧ res.pagination.has_next = decide (page < res.pagination.total_pages)
          ∧ res.pagination.has_prev = decide (1 < page)) := by
  rw [service_get_song_by_title_paginated]
  rw [if_neg ht, if_neg (by omega), if_neg (by omega), if_neg (by omega)]
  dsimp only
  constructor
  · split <;> rfl
  · intro res h
    split at h
    · exact absurd h (by simp)
    · simp only [Prod.fst, Except.ok.injEq, Option.some.injEq] at h
      subst h
      exact ⟨nat_ceil_div _ limit (by omega), rfl, rfl⟩

/-- The concrete result of searching `"Love"` on a one-track store. -/
def pagRes0 : PagResult :=
  { songs := [format_paginated_song_data loveRow], search_term := "Love",
    pagination :=
      { current_page := 1, per_page := 10, total_results := 1,
        total_pages := 1, has_next := false, has_prev := false,
        next_page := none, prev_page := none } }

/-- C2 witness: one track `"Love"`, page 1, limit 10 — the service
returns `pagRes0`, the DAO trace holds the offset-0 page query and the
count query, and `total_pages` equals the ceiling of `1 / 10`. -/
theorem search_pagination_metadata_witness :
    (service_get_song_by_title_paginated [loveRow] "Love" 1 10).1
      = .ok (some pagRes0)
    ∧ (service_get_song_by_title_paginated [loveRow] "Love" 1 10).2
        = [.searchPage "Love" 10 0, .countByTitle "Love"]
    ∧ (pagRes0.pagination.total_pages : ℤ)
        = ⌈(get_songs_count_by_title [loveRow] "Love" : ℚ) / (10 : ℚ)⌉ := by
  have h := search_pagination_metadata [loveRow] "Love" 1 10 (by decide)
    (by decide) (by decide) (by decide)
  have hstrip : pyStrip "Love" = "Love" := by decide
  have hres : (service_get_song_by_title_paginated [loveRow] "Love" 1 10).1
      = .ok (some pagRes0) := by decide
  refine ⟨hres, ?_, ?_⟩
  · rw [h.1, hstrip]
  · have hm := (h.2 pagRes0 hres).1
    rwa [hstrip] at hm

/-! ### C6 — missing keys during normalisation -/

lemma exceptBind_err {ε α β : Type} (e : ε) (f : α → Except ε β) :
    (Except.error e >>= f) = Except.error e := rfl

lemma exceptBind_ok {ε α β : Type} (a : α) (f : α → Except ε β) :
    (Except.ok a >>= f) = f a := rfl

/-- A fully populated raw record. -/
def recFull : RawRecord :=
  [("id", 1), ("title", 2), ("danceability", 3), ("energy", 4), ("mode", 5),
   ("acousticness", 6), ("tempo", 7), ("duration_ms", 8),
   ("num_sections", 9), ("num_segments", 10)]

/-- A raw record that carries every required key except `tempo`. -/
def recNoTempo : RawRecord :=
  [("id", 11), ("title", 12), ("danceability", 13), ("energy", 14),
   ("mode", 15), ("acousticness", 16), ("duration_ms", 18),
   ("num_sections", 19), ("num_segments", 20)]

/-- What normalisation produces for `recFull`. -/
def fdFull : FileData :=
  { id := .num 1, title := .num 2, danceability := .num 3, energy := .num 4,
    mode := 5, accousticness := .num 6, tempo := .num 7, duration_ms := 8,
    num_sections := 9, num_segments := 10 }

/-- What normalisation produces for `recNoTempo`: `tempo` becomes `NaN`. -/
def fdNoTempo : FileData :=
  { id := .num 11, title := .num 12, danceability := .num 13,
    energy := .num 14, mode := 15, accousticness := .num 16, tempo := .nan,
    duration_ms := 18, num_sections := 19, num_segments := 20 }

/-- C6 counterexample: a batch whose second record is missing the
required key `tempo` does **not** fail — because the first record supplies
the `tempo` column, pandas fills the hole with `NaN`, `float(NaN)`
succeeds, and the whole batch normalises, handing a `NaN`-tempo record
onward.  This refutes "if any record is missing one of the required keys,
normalization fails the whole batch with a `MissingFieldError`". -/
theorem normalize_mixed_batch_cex :
    List.lookup "tempo" recNoTempo = none
    ∧ "tempo" ∈ requiredKeys
    ∧ normalize_json_to_filedata [recFull, recNoTempo] = .ok [fdFull, fdNoTempo]
    ∧ fdNoTempo.tempo = Cell.nan := by
  refine ⟨by decide, by decide, by decide, rfl⟩

/-- A row that normalises successfully used every required column. -/
lemma normalizeRow_ok_col (batch : List RawRecord) (r : RawRecord)
    (fd : FileData) (h : normalizeRow batch r = .ok fd) :
    ∀ k ∈ requiredKeys, columnExists batch k = true := by
  have hcol : ∀ k c, dfCell batch r k = .ok c → columnExists batch k = true := by
    intro k c hc
    by_contra hf
    rw [Bool.not_eq_true] at hf
    simp [dfCell, hf] at hc
  rw [normalizeRow] at h
  rcases h1 : dfCell batch r "id" with e | v1
  · rw [h1, exceptBind_err] at h
    simp at h
  rw [h1, exceptBind_ok] at h
  rcases h2 : dfCell batch r "title" with e | v2
  · rw [h2, exceptBind_err] at h
    simp at h
  rw [h2, exceptBind_ok] at h
  rcases h3 : dfCell batch r "danceability" with e | v3
  · rw [h3, exceptBind_err] at h
    simp at h
  rw [h3, exceptBind_ok] at h
  rcases h4 : dfCell batch r "energy" with e | v4
  · rw [h4, exceptBind_err] at h
    simp at h
  rw [h4, exceptBind_ok] at h
  rcases h5 : dfCell batch r "mode" with e | v5
  · rw [h5, exceptBind_err, exceptBind_err] at h
    simp at h
  rw [h5, exceptBind_ok] at h
  rcases h5i : toIntCell v5 with e | m5
  · rw [h5i, exceptBind_err] at h
    simp at h
  rw [h5i, exceptBind_ok] at h
  rcases h6 : dfCell batch r "acousticness" with e | v6
  · rw [h6, exceptBind_err] at h
    simp at h
  rw [h6, exceptBind_ok] at h
  rcases h7 : dfCell batch r "tempo" with e | v7
  · rw [h7, exceptBind_err] at h
    simp at h
  rw [h7, exceptBind_ok] at h
  rcases h8 : dfCell batch r "duration_ms" with e | v8
  · rw [h8, exceptBind_err, exceptBind_err] at h
    simp at h
  rw [h8, exceptBind_ok] at h
  rcases h8i : toIntCell v8 with e | m8
  · rw [h8i, exceptBind_err] at h
    simp at h
  rw [h8i, exceptBind_ok] at h
  rcases h9 : dfCell batch r "num_sections" with e | v9
  · rw [h9, exceptBind_err, exceptBind_err] at h
    simp at h
  rw [h9, exceptBind_ok] at h
  rcases h9i : toIntCell v9 with e | m9
  · rw [h9i, exceptBind_err] at h
    simp at h
  rw [h9i, exceptBind_ok] at h
  rcases h10 : dfCell batch r "num_segments" with e | v10
  · rw [h10, exceptBind_err, exceptBind_err] at h
    simp at h
  intro k hk
  fin_cases hk
  exacts [hcol _ _ h1, hcol _ _ h2, hcol _ _ h3, hcol _ _ h4, hcol _ _ h5,
    hcol _ _ h6, hcol _ _ h7, hcol _ _ h8, hcol _ _ h9, hcol _ _ h10]

/-- C6 amended: the batch-aborting `KeyError` fires exactly for a
required key that is missing from *every* record of a non-empty batch;
then the whole batch fails with no partial output. -/
theorem normalize_missing_column_aborts (batch : List RawRecord) (k : String)
    (hne : batch ≠ []) (hk : k ∈ requiredKeys)
    (hmiss : ∀ rec ∈ batch, ∀ p ∈ (rec : List (String × ℚ)), p.1 ≠ k) :
    ∃ e, normalize_json_to_filedata batch = .error e := by
  obtain ⟨r, rest, rfl⟩ := List.exists_cons_of_ne_nil hne
  have hcol : columnExists (r :: rest) k = false := by
    simp only [columnExists, List.any_eq_false, decide_eq_true_eq]
    intro rec hrec
    simp only [List.any_eq_true, decide_eq_true_eq, not_exists]
    intro p hp
    exact hmiss rec hrec p hp.1 hp.2
  rcases hrow : normalizeRow (r :: rest) r with e | fd
  · refine ⟨e, ?_⟩
    rw [normalize_json_to_filedata, List.mapM_cons, hrow, exceptBind_err]
  · exact absurd (normalizeRow_ok_col _ _ _ hrow k hk) (by simp [hcol])

/-- C6 witness: a one-record batch missing `title` entirely aborts with
an error. -/
theorem normalize_missing_column_aborts_witness :
    ([[("id", (1 : ℚ))]] ≠ ([] : List RawRecord))
    ∧ "title" ∈ requiredKeys
    ∧ (∀ rec ∈ [[("id", (1 : ℚ))]],
        ∀ p ∈ (rec : List (String × ℚ)), p.1 ≠ "title")
    ∧ ∃ e, normalize_json_to_filedata [[("id", (1 : ℚ))]] = .error e :=
  ⟨by decide, by decide, by decide,
   normalize_missing_column_aborts [[("id", (1 : ℚ))]] "title" (by decide)
     (by decide) (by decide)⟩

/-! ### C1 — filter and ordering of the title search -/

lemma lexLe_total (as bs : List Char) :
    lexLe as bs = true ∨ lexLe bs as = true := by
  induction as generalizing bs with
  | nil => exact Or.inl rfl
  | cons a as ih =>
    cases bs with
    | nil => exact Or.inr rfl
    | cons b bs =>
      rcases Nat.lt_trichotomy a.toNat b.toNat with h | h | h
      · exact Or.inl (by simp [lexLe, h])
      · rcases ih bs with hab | hba
        · exact Or.inl (by simp [lexLe, h, hab])
        · exact Or.inr (by simp [lexLe, h.symm, hba])
      · exact Or.inr (by simp [lexLe, h])

lemma lexLe_trans (as bs cs : List Char) (h1 : lexLe as bs = true)
    (h2 : lexLe bs cs = true) : lexLe as cs = true := by
  induction as generalizing bs cs with
  | nil => rfl
  | cons a as ih =>
    cases bs with
    | nil => simp [lexLe] at h1
    | cons b bs =>
      cases cs with
      | nil => simp [lexLe] at h2
      | cons c cs =>
        simp only [lexLe, Bool.or_eq_true, Bool.and_eq_true,
          decide_eq_true_eq] at h1 h2 ⊢
        rcases h1 with h1 | ⟨h1e, h1r⟩ <;> rcases h2 with h2 | ⟨h2e, h2r⟩
        · exact Or.inl (by omega)
        · exact Or.inl (by omega)
        · exact Or.inl (by omega)
        · exact Or.inr ⟨by omega, ih bs cs h1r h2r⟩

lemma searchKeyLe_total (term : String) (a b : Row) :
    searchKeyLe term a b = true ∨ searchKeyLe term b a = true := by
  rcases Nat.lt_trichotomy (searchRank term a) (searchRank term b)
    with h | h | h
  · exact Or.inl (by simp [searchKeyLe, h])
  · rcases lexLe_total a.title.data b.title.data with hab | hba
    · exact Or.inl (by simp [searchKeyLe, strLeB, h, hab])
    · exact Or.inr (by simp [searchKeyLe, strLeB, h.symm, hba])
  · exact Or.inr (by simp [searchKeyLe, h])

lemma searchKeyLe_trans (term : String) (a b c : Row)
    (h1 : searchKeyLe term a b = true) (h2 : searchKeyLe term b c = true) :
    searchKeyLe term a c = true := by
  simp only [searchKeyLe, strLeB, Bool.or_eq_true, Bool.and_eq_true,
    decide_eq_true_eq] at h1 h2 ⊢
  rcases h1 with h1 | ⟨h1e, h1r⟩ <;> rcases h2 with h2 | ⟨h2e, h2r⟩
  · exact Or.inl (by omega)
  · exact Or.inl (by omega)
  · exact Or.inl (by omega)
  · exact Or.inr ⟨by omega, lexLe_trans _ _ _ h1r h2r⟩

instance searchKeyLeIsTotal (term : String) :
    IsTotal Row (fun a b => searchKeyLe term a b = true) :=
  ⟨searchKeyLe_total term⟩

instance searchKeyLeIsTrans (term : String) :
    IsTrans Row (fun a b => searchKeyLe term a b = true) :=
  ⟨searchKeyLe_trans term⟩

/-- Everything the paginated search returns passed the `LIKE` filter. -/
lemma search_result_filtered (db : List Row) (term : String)
    (limit offset : ℕ) :
    ∀ x ∈ get_songs_by_title_paginated db term limit offset,
      rowMatches term x = true := by
  intro x hx
  have h1 : x ∈ (searchRows db term).drop offset := List.mem_of_mem_take hx
  have h2 : x ∈ searchRows db term := List.mem_of_mem_drop h1
  have h3 : x ∈ db.filter (rowMatches term) :=
    ((List.perm_insertionSort _ _).mem_iff).mp h2
  exact (List.mem_filter.mp h3).2

/-- The full search result set is sorted by the two-part key. -/
lemma searchRows_pairwise (db : List Row) (term : String) :
    List.Pairwise (fun a b => searchKeyLe term a b = true)
      (searchRows db term) :=
  List.sorted_insertionSort _ _

/-- One-step unfolding of `likeMatch` on a non-empty pattern, stated
without constraining the shapes of the pattern tail or the string. -/
lemma likeMatch_cons (p : Char) (ps : List Char) (s : List Char) :
    likeMatch (p :: ps) s =
      if p = '\\' then
        match ps, s with
        | [], _ => false
        | _ :: _, [] => false
        | e :: ps', c :: s' => (e = c) && likeMatch ps' s'
      else if p = '%' then s.tails.any (fun t => likeMatch ps t)
      else
        match s with
        | [] => false
        | c :: s' => (p = '_' || p = c) && likeMatch ps s' := by
  cases ps <;> cases s <;> rfl

/-- A `LIKE` pattern `p ++ ['%']` with a wildcard- and escape-free `p`
matches exactly the strings beginning with `p`. -/
lemma likeMatch_append_pct (p : List Char)
    (hp : ∀ c ∈ p, c ≠ '%' ∧ c ≠ '_' ∧ c ≠ '\\') :
    ∀ s, likeMatch (p ++ ['%']) s = startsWithB p s := by
  induction p with
  | nil =>
    intro s
    have htails : ∀ t : List Char, t.tails.any (fun u => u.isEmpty) = true := by
      intro t
      induction t with
      | nil => rfl
      | cons a t iht => simp [List.tails_cons, iht]
    rw [List.nil_append, likeMatch_cons]
    simp [likeMatch, startsWithB, htails s]
  | cons c p ih =>
    intro s
    have hc := hp c (List.mem_cons_self c p)
    have hrest : ∀ c' ∈ p, c' ≠ '%' ∧ c' ≠ '_' ∧ c' ≠ '\\' :=
      fun c' hc' => hp c' (List.mem_cons_of_mem c hc')
    cases s with
    | nil =>
      rw [List.cons_append, likeMatch_cons, if_neg hc.2.2, if_neg hc.1]
      simp [startsWithB]
    | cons d s' =>
      rw [List.cons_append, likeMatch_cons, if_neg hc.2.2, if_neg hc.1]
      dsimp only
      rw [ih hrest s']
      simp [startsWithB, hc.2.1]

/-- For a wildcard- and escape-free term, the pattern `%term%` tests
substring containment. -/
lemma likeMatch_pct_wrap (p : List Char)
    (hp : ∀ c ∈ p, c ≠ '%' ∧ c ≠ '_' ∧ c ≠ '\\') (s : List Char) :
    likeMatch ('%' :: (p ++ ['%'])) s = containsB p s := by
  have h0 : likeMatch ('%' :: (p ++ ['%'])) s
      = s.tails.any (fun t => likeMatch (p ++ ['%']) t) := by
    rw [likeMatch_cons, if_neg (by decide), if_pos rfl]
  rw [h0, containsB]
  exact congrArg (List.any s.tails)
    (funext fun t => likeMatch_append_pct p hp t)

/-- C1 amended: every row the paginated search returns matches the SQL
`LIKE` pattern `%term%` case-insensitively — which, whenever the
(lower-cased) term contains no `%` or `_` wildcard and no `\\` escape
character, is exactly case-insensitive substring containment; the
returned page is ordered with every exact case-insensitive title match
before every other match and by title within each group; and in the
full ordered result set for `"love"`, every row titled `"Love"` sits
strictly before every row titled `"I Love You"`, whatever the insertion
order was. -/
theorem search_like_filter_and_ordering (db : List Row) (term : String)
    (limit offset : ℕ) :
    ((get_songs_by_title_paginated db term limit offset).all
        (rowMatches term) = true)
    ∧ List.Pairwise (fun a b => searchKeyLe term a b = true)
        (get_songs_by_title_paginated db term limit offset)
    ∧ ((lowerStr term).toList.all
          (fun c => ¬(c = '%' ∨ c = '_' ∨ c = '\\')) = true →
        (get_songs_by_title_paginated db term limit offset).all
          (titleContains term) = true)
    ∧ ∀ (i j : ℕ) (hi : i < (searchRows db "love").length)
        (hj : j < (searchRows db "love").length),
        ((searchRows db "love").get ⟨i, hi⟩).title = "I Love You" →
        ((searchRows db "love").get ⟨j, hj⟩).title = "Love" →
        j < i := by
  refine ⟨?_, ?_, ?_, ?_⟩
  · exact List.all_eq_true.mpr (search_result_filtered db term limit offset)
  · refine List.Pairwise.sublist ?_ (searchRows_pairwise db term)
    exact ((searchRows db term).drop offset).take_sublist limit |>.trans
      ((searchRows db term).drop_sublist offset)
  · intro hwild
    have hp : ∀ c ∈ (lowerStr term).toList,
        c ≠ '%' ∧ c ≠ '_' ∧ c ≠ '\\' := by
      intro c hc
      have := List.all_eq_true.mp hwild c hc
      simp only [decide_eq_true_eq] at this
      exact ⟨fun h => this (Or.inl h), fun h => this (Or.inr (Or.inl h)),
        fun h => this (Or.inr (Or.inr h))⟩
    refine List.all_eq_true.mpr fun x hx => ?_
    have hm := search_result_filtered db term limit offset x hx
    rw [rowMatches, likePattern, likeMatch_pct_wrap _ hp] at hm
    exact hm
  · intro i j hi hj hti htj
    by_contra hij
    push_neg at hij
    have hri : searchRank "love" ((searchRows db "love").get ⟨i, hi⟩) = 1 := by
      rw [searchRank, hti]
      decide
    have hrj : searchRank "love" ((searchRows db "love").get ⟨j, hj⟩) = 0 := by
      rw [searchRank, htj]
      decide
    rcases eq_or_lt_of_le hij with heq | hlt
    · rw [show (⟨i, hi⟩ : Fin (searchRows db "love").length) = ⟨j, hj⟩
          from Fin.mk_eq_mk.mpr heq] at hti
      rw [htj] at hti
      simp at hti
    · have hpw := List.pairwise_iff_get.mp (searchRows_pairwise db "love")
        ⟨i, hi⟩ ⟨j, hj⟩ hlt
      rw [searchKeyLe, hri, hrj] at hpw
      simp at hpw

/-- C1 counterexample (to the claim as stated): searching for the term
`"_"` returns the row titled `"A"`, whose title does not contain the
substring `"_"` — SQL `LIKE` reads `_` as a single-character wildcard.
Likewise, searching for the three-character term `a\\b` returns the row
titled `"ab"`, which does not contain that term — `LIKE` reads `\\b` as
an escaped literal `b`. -/
theorem search_like_wildcard_cex :
    get_songs_by_title_paginated [rowA] "_" 10 0 = [rowA]
    ∧ titleContains "_" rowA = false
    ∧ get_songs_by_title_paginated [rowAB] "a\\b" 10 0 = [rowAB]
    ∧ titleContains "a\\b" rowAB = false := by
  decide

/-- C1 witness: with `"I Love You"` inserted before `"Love"`, the search
for `"love"` still lists `"Love"` first; the term `"love"` is
wildcard-free, so every returned row contains it case-insensitively. -/
theorem search_like_filter_and_ordering_witness :
    (searchRows [iLoveYouRow, loveRow] "love").get? 0 = some loveRow
    ∧ (searchRows [iLoveYouRow, loveRow] "love").get? 1 = some iLoveYouRow
    ∧ ((lowerStr "love").toList.all
        (fun c => ¬(c = '%' ∨ c = '_' ∨ c = '\\')) = true)
    ∧ (get_songs_by_title_paginated [iLoveYouRow, loveRow] "love" 10 0).all
        (titleContains "love") = true
    ∧ 0 < 1 := by
  have h := search_like_filter_and_ordering [iLoveYouRow, loveRow] "love" 10 0
  exact ⟨by decide, by decide, by decide, h.2.2.1 (by decide),
    h.2.2.2 1 0 (by decide) (by decide) (by decide) (by decide)⟩

/-! ### Remaining concrete witnesses -/

/-- C5 witness: the case-sensitive probe does find an exactly spelled
title. -/
theorem exists_lookup_case_sensitive_witness :
    check_song_exists [loveRow] "Love" = true :=
  (exists_lookup_case_sensitive [loveRow] "Love").mpr
    ⟨loveRow, List.mem_cons_self _ _, rfl⟩

/-- C7 witness: an empty title does make `rate_song` raise. -/
theorem rate_song_validation_characterization_witness :
    ∃ e, (service_rate_song [] "" PyRating.nonNum).1 = .error e :=
  (rate_song_validation_characterization [] "" .nonNum).1.mpr (Or.inl rfl)

/-- C10 witness: the divergence at `0.0`, on a concrete row. -/
theorem listall_zero_feature_vs_getbytitle_witness :
    (shape_all_song_row { loveRow with danceability := some 0 }).danceability
        = none
    ∧ (format_full_song_data
        { loveRow with danceability := some 0 }).danceability = some 0 :=
  ⟨(listall_zero_feature_vs_getbytitle loveRow).1,
   (listall_zero_feature_vs_getbytitle loveRow).2.2.1⟩

end Vivpro
